import Mathlib

/-!
Shallow embedding of the negotiation/payment handshake of the
data-marketplace demo (src/data-negotiation-agents-server.ts, with the
alternate revision in src/unnamed/part_003 embedded where it diverges).

Prices are JS numbers; we model them as rationals.  `Math.floor` is the
mathematical floor `⌊·⌋ : ℚ → ℤ`.  The two process-global JS `Map`s are
modelled as insertion-ordered association lists (JS `Map` preserves
insertion order, `set` on an existing key keeps its position, new keys are
appended, and `for (const [k,v] of m)` iterates in insertion order).
External effects (the payment SDK minting a token, `Date.now()`,
`Math.random()`) are passed in as explicit parameters.
-/

/-- Catalog entry (interface DataResource). Immutable. -/
structure DataResource where
  id : String
  name : String
  description : String
  format : String
  size : String
  listPrice : ℚ
  minimumPrice : ℚ
  category : String
deriving DecidableEq, Repr

/-- Minimum price MIN_PRICES.housing. -/
def MIN_PRICES_housing : ℚ := 8
/-- Minimum price MIN_PRICES.ticker. -/
def MIN_PRICES_ticker : ℚ := 10
/-- Minimum price MIN_PRICES.llm_paper. -/
def MIN_PRICES_llm_paper : ℚ := 12

/-- The data catalogue (const dataCatalogue). -/
def dataCatalogue : List DataResource :=
  [ { id := "housing_inventory_2024"
    , name := "US Housing Market Inventory 2024"
    , description := "Comprehensive housing inventory data across all US metropolitan areas for 2024"
    , format := "CSV"
    , size := "12 MB"
    , listPrice := 10
    , minimumPrice := MIN_PRICES_housing
    , category := "housing" }
  , { id := "spy_ticker_365d"
    , name := "SPY Minute-Level Ticker Data (365 days)"
    , description := "Minute-by-minute ticker data for SPDR S&P 500 ETF (SPY) for the last 365 days"
    , format := "CSV"
    , size := "5 MB"
    , listPrice := 12
    , minimumPrice := MIN_PRICES_ticker
    , category := "ticker" }
  , { id := "llm_benchmark_paper"
    , name := "Comprehensive LLM Benchmarking Study 2024"
    , description := "Academic paper analyzing performance benchmarks of major LLMs with detailed methodology"
    , format := "PDF"
    , size := "2.5 MB"
    , listPrice := 13
    , minimumPrice := MIN_PRICES_llm_paper
    , category := "llm_paper" } ]

/-- interface PendingNegotiation. -/
structure PendingNegotiation where
  resource : DataResource
  currentOffer : ℚ
  negotiationRound : ℕ
  paymentToken : Option String
deriving DecidableEq, Repr

/-- Value type of the completedTransactions map:
`{ resourceId: string; finalPrice: number }`. -/
structure CompletedTransaction where
  resourceId : String
  finalPrice : ℚ
deriving DecidableEq, Repr

/-- The mutable process-global state of the seller role:
`pendingNegotiations`, `completedTransactions`, `lastProvidedPaymentToken`. -/
structure ServerState where
  pendingNegotiations : List (String × PendingNegotiation)
  completedTransactions : List (String × CompletedTransaction)
  lastProvidedPaymentToken : Option String
deriving DecidableEq, Repr

/-- JS `Map.prototype.get`. -/
def mapGet {α : Type} (m : List (String × α)) (k : String) : Option α :=
  (m.find? (fun e => e.1 == k)).map (fun e => e.2)

/-- JS `Map.prototype.set`: replaces in place if the key is present
(keeping insertion order), otherwise appends. -/
def mapSet {α : Type} (m : List (String × α)) (k : String) (v : α) :
    List (String × α) :=
  if (m.find? (fun e => e.1 == k)).isSome then
    m.map (fun e => if e.1 == k then (k, v) else e)
  else m ++ [(k, v)]

/-- JS `Map.prototype.delete`. -/
def mapDelete {α : Type} (m : List (String × α)) (k : String) :
    List (String × α) :=
  m.filter (fun e => ¬ (e.1 == k))

/-- JS `Map.prototype.has`. -/
def mapHas {α : Type} (m : List (String × α)) (k : String) : Bool :=
  (m.find? (fun e => e.1 == k)).isSome

/-- Process start: both maps empty, no last token. -/
def initialState : ServerState :=
  { pendingNegotiations := []
  , completedTransactions := []
  , lastProvidedPaymentToken := none }

/-- Result of the negotiatePrice tool (message fields of the accepted and
countered branches elided; the error string is kept verbatim). -/
inductive NegotiateResult where
  | error (msg : String)
  | accepted (finalPrice : ℚ)
  | countered (counterOffer : ℚ) (minimumPrice : ℚ)
deriving DecidableEq, Repr

/-- The pure outcome of one negotiatePrice call for a found resource
(the branch cascade at the end of the tool body). -/
def evalOffer (resource : DataResource) (offeredPrice : ℚ) : NegotiateResult :=
  if offeredPrice ≥ resource.listPrice then
    .accepted resource.listPrice
  else if offeredPrice ≥ resource.minimumPrice then
    .accepted offeredPrice
  else
    .countered
      (max resource.minimumPrice
        ((⌊(offeredPrice + resource.listPrice) / 2⌋ : ℤ) : ℚ))
      resource.minimumPrice

/-- negotiatePrice tool (src/data-negotiation-agents-server.ts lines
176-228; src/unnamed/part_003 lines 346-397 is behaviourally identical). -/
def negotiatePrice (s : ServerState) (resourceId : String) (offeredPrice : ℚ)
    (negotiationId : String) : ServerState × NegotiateResult :=
  match dataCatalogue.find? (fun r => r.id == resourceId) with
  | none => (s, .error "Resource not found")
  | some resource =>
    let pending :=
      match mapGet s.pendingNegotiations negotiationId with
      | none =>
        mapSet s.pendingNegotiations negotiationId
          { resource := resource
          , currentOffer := offeredPrice
          , negotiationRound := 1
          , paymentToken := none }
      | some negotiation =>
        mapSet s.pendingNegotiations negotiationId
          { negotiation with
            currentOffer := offeredPrice
          , negotiationRound := negotiation.negotiationRound + 1 }
    ({ s with pendingNegotiations := pending }, evalOffer resource offeredPrice)

/-- Result of the createDataPaymentRequest tool.  The `ok` constructor
records the single external payment-SDK call the tool makes
(`createPaymentRequest(agreedPrice * 100, description)`): its minor-unit
amount and its description, together with the token the SDK returned and
the echoed amount.  The `error` constructor is the early return taken
before the SDK is reached. -/
inductive CreatePaymentResult where
  | error (msg : String)
  | ok (sdkAmountMinorUnits : ℚ) (sdkDescription : String)
      (paymentToken : String) (amount : ℚ)
deriving DecidableEq, Repr

/-- createDataPaymentRequest tool of the primary server
(src/data-negotiation-agents-server.ts lines 237-288).  `mintedToken` is
the token returned by the external SDK.  Note: when no session exists for
`negotiationId`, this variant records the token only in
`lastProvidedPaymentToken` — it does not create a session. -/
def createDataPaymentRequest (s : ServerState) (resourceId : String)
    (agreedPrice : ℚ) (negotiationId : String) (mintedToken : String) :
    ServerState × CreatePaymentResult :=
  match dataCatalogue.find? (fun r => r.id == resourceId) with
  | none => (s, .error "Resource not found")
  | some resource =>
    let pending :=
      match mapGet s.pendingNegotiations negotiationId with
      | some negotiation =>
        mapSet s.pendingNegotiations negotiationId
          { negotiation with paymentToken := some mintedToken }
      | none => s.pendingNegotiations
    ({ s with
        pendingNegotiations := pending
      , lastProvidedPaymentToken := some mintedToken },
     .ok (agreedPrice * 100) ("Purchase: " ++ resource.name) mintedToken
       agreedPrice)

/-- createDataPaymentRequest tool of the alternate revision
(src/unnamed/part_003 lines 407-445).  Unlike the primary variant it
creates the session when absent (round 1, currentOffer = agreedPrice).
That revision keeps no `lastProvidedPaymentToken` global; the field is
left unchanged here. -/
def createDataPaymentRequestV2 (s : ServerState) (resourceId : String)
    (agreedPrice : ℚ) (negotiationId : String) (mintedToken : String) :
    ServerState × CreatePaymentResult :=
  match dataCatalogue.find? (fun r => r.id == resourceId) with
  | none => (s, .error "Resource not found")
  | some resource =>
    let pending :=
      match mapGet s.pendingNegotiations negotiationId with
      | some negotiation =>
        mapSet s.pendingNegotiations negotiationId
          { negotiation with paymentToken := some mintedToken }
      | none =>
        mapSet s.pendingNegotiations negotiationId
          { resource := resource
          , currentOffer := agreedPrice
          , negotiationRound := 1
          , paymentToken := some mintedToken }
    ({ s with pendingNegotiations := pending },
     .ok (agreedPrice * 100) ("Purchase: " ++ resource.name) mintedToken
       agreedPrice)

/-- generateAccessToken (lines 83-87): `Date.now()` and the
`Math.random()`-derived string are external inputs. -/
def generateAccessToken (resourceId : String) (timestamp : ℕ)
    (random : String) : String :=
  "access_" ++ resourceId ++ "_" ++ toString timestamp ++ "_" ++ random

/-- Result of the provideAccessDataURL tool (success carries the download
URL and the access key; other response fields are derived from these and
the matched session). -/
inductive AccessResult where
  | error (msg : String)
  | success (downloadUrl : String) (accessKey : String)
deriving DecidableEq, Repr

/-- provideAccessDataURL tool, Variant A (src/data-negotiation-agents-server.ts
lines 306-366): direct token lookup.  Scans active sessions in insertion
order for the first one carrying `paymentToken`; fails "not found" when
none does, fails "already completed" when the token already has a
completed transaction, otherwise releases the artifact, records the
completed transaction at the session's currentOffer and deletes the
session.  Variant B (src/unnamed/part_003 lines 450-509) first extracts
the token from a fetched receipt and then runs this same core.
`timestamp`/`random` feed generateAccessToken; `receiptId` is only echoed
back. -/
def provideAccessDataURL (s : ServerState) (paymentToken : String)
    (receiptId : String) (timestamp : ℕ) (random : String) :
    ServerState × AccessResult :=
  match s.pendingNegotiations.find?
      (fun e => e.2.paymentToken == some paymentToken) with
  | none => (s, .error "Payment token not found or invalid")
  | some found =>
    let negotiationId := found.1
    let foundNegotiation := found.2
    if mapHas s.completedTransactions paymentToken then
      (s, .error "This transaction has already been completed")
    else
      let accessToken := generateAccessToken foundNegotiation.resource.id
        timestamp random
      let downloadUrl := "https://data-provider.example.com/download/"
        ++ foundNegotiation.resource.id ++ "?token=" ++ accessToken
      ({ s with
          completedTransactions :=
            mapSet s.completedTransactions paymentToken
              { resourceId := foundNegotiation.resource.id
              , finalPrice := foundNegotiation.currentOffer }
        , pendingNegotiations :=
            mapDelete s.pendingNegotiations negotiationId },
       .success downloadUrl accessToken)

/-- getLastPaymentToken tool (lines 290-305): returns the process-global
lastProvidedPaymentToken, `none` when no payment request was ever made. -/
def getLastPaymentToken (s : ServerState) : Option String :=
  s.lastProvidedPaymentToken

/-- One handler invocation of the seller role, with all external inputs
(minted token, clock, randomness) made explicit. -/
inductive Op where
  | negotiate (resourceId : String) (offeredPrice : ℚ) (negotiationId : String)
  | createPayment (resourceId : String) (agreedPrice : ℚ)
      (negotiationId : String) (mintedToken : String)
  | provideAccess (paymentToken : String) (receiptId : String)
      (timestamp : ℕ) (random : String)

/-- State transition of one handler invocation (result discarded). -/
def step (s : ServerState) : Op → ServerState
  | .negotiate rid o nid => (negotiatePrice s rid o nid).1
  | .createPayment rid p nid tok => (createDataPaymentRequest s rid p nid tok).1
  | .provideAccess t rcpt ts rnd => (provideAccessDataURL s t rcpt ts rnd).1

/-- Run a sequence of handler invocations. -/
def run (s : ServerState) (ops : List Op) : ServerState := ops.foldl step s

/-- A sequence of negotiatePrice calls, all for the same resource id and
the same session id. -/
def offerOps (resourceId negotiationId : String) (os : List ℚ) : List Op :=
  os.map (fun o => Op.negotiate resourceId o negotiationId)

/-- The results of a sequence of negotiatePrice calls with the same
resource id and session id, state threaded through. -/
def runOffersResults : ServerState → String → String → List ℚ →
    List NegotiateResult
  | _, _, _, [] => []
  | s, rid, nid, o :: rest =>
    (negotiatePrice s rid o nid).2 ::
      runOffersResults (negotiatePrice s rid o nid).1 rid nid rest

/-- Extract the counter-offer of a countered result. -/
def counterOf : NegotiateResult → Option ℚ
  | .countered c _ => some c
  | _ => none

/-- The update the process-global lastProvidedPaymentToken undergoes on
one operation: every createDataPaymentRequest on a known resource id
overwrites it with the freshly minted token; nothing else touches it. -/
def lastMintedUpdate (acc : Option String) : Op → Option String
  | .createPayment rid _ _ tok =>
    if (dataCatalogue.find? (fun r => r.id == rid)).isSome then some tok
    else acc
  | _ => acc

/-- The token of the last successful createDataPaymentRequest of a trace,
`none` when the trace contains none. -/
def lastMintedToken (ops : List Op) : Option String :=
  ops.foldl lastMintedUpdate none

/-- Does some active negotiation session carry this payment token? -/
def carriesToken (s : ServerState) (t : String) : Bool :=
  (s.pendingNegotiations.find?
    (fun e => e.2.paymentToken == some t)).isSome

/-- The housing catalog entry, for concrete instantiations. -/
def housingResource : DataResource :=
  { id := "housing_inventory_2024"
  , name := "US Housing Market Inventory 2024"
  , description := "Comprehensive housing inventory data across all US metropolitan areas for 2024"
  , format := "CSV"
  , size := "12 MB"
  , listPrice := 10
  , minimumPrice := MIN_PRICES_housing
  , category := "housing" }

example :
    (negotiatePrice initialState "housing_inventory_2024" 5 "n1").2 =
      .countered 8 8 := by
  norm_num [negotiatePrice, dataCatalogue, evalOffer, initialState, mapGet,
    MIN_PRICES_housing]

example :
    (negotiatePrice initialState "housing_inventory_2024" 8 "n1").2 =
      .accepted 8 := by decide

example :
    (negotiatePrice initialState "housing_inventory_2024" 12 "n1").2 =
      .accepted 10 := by decide

/-! ### Association-list (JS Map) lemmas -/

theorem find?_map_upd {α : Type} (m : List (String × α)) (k : String) (v : α) :
    (m.map (fun e => if e.1 == k then (k, v) else e)).find?
        (fun e => e.1 == k) =
      (m.find? (fun e => e.1 == k)).map (fun _ => (k, v)) := by
  induction m with
  | nil => rfl
  | cons e t ih =>
    cases hb : (e.1 == k) with
    | true =>
      have hkv : ((k, v).1 == k) = true := beq_self_eq_true k
      simp only [List.map_cons, hb, if_true, List.find?_cons, hkv,
        Option.map_some']
    | false =>
      simp only [List.map_cons, hb, Bool.false_eq_true, if_false,
        List.find?_cons, ih]

theorem mapGet_mapSet_self {α : Type} (m : List (String × α)) (k : String)
    (v : α) : mapGet (mapSet m k v) k = some v := by
  unfold mapGet mapSet
  by_cases h : (m.find? (fun e => e.1 == k)).isSome
  · rw [if_pos h, find?_map_upd]
    obtain ⟨e, he⟩ := Option.isSome_iff_exists.mp h
    simp [he]
  · rw [if_neg h, List.find?_append]
    rw [Option.not_isSome_iff_eq_none] at h
    simp [h]

theorem comp_upd_eq {α : Type} (k k' : String) (v : α) :
    ((fun (e : String × α) => e.1 == k') ∘
      (fun e => if e.1 == k then (k, v) else e)) =
    (fun e => e.1 == k') := by
  funext e
  cases hb : (e.1 == k) with
  | true =>
    have h1 : e.1 = k := beq_iff_eq.mp hb
    simp only [Function.comp_apply, hb, if_true]
    show (k == k') = (e.1 == k')
    rw [h1]
  | false =>
    simp only [Function.comp_apply, hb, Bool.false_eq_true, if_false]

theorem mapGet_mapSet_ne {α : Type} (m : List (String × α)) (k k' : String)
    (v : α) (hne : k' ≠ k) : mapGet (mapSet m k v) k' = mapGet m k' := by
  unfold mapGet mapSet
  by_cases h : (m.find? (fun e => e.1 == k)).isSome
  · rw [if_pos h, List.find?_map, comp_upd_eq k k' v]
    cases hf : m.find? (fun e => e.1 == k') with
    | none => rfl
    | some e =>
      have hp : (e.1 == k') = true := (List.find?_eq_some.mp hf).1
      have h1 : e.1 = k' := beq_iff_eq.mp hp
      have h2 : (e.1 == k) = false := by
        rw [beq_eq_false_iff_ne]
        rw [h1]
        exact hne
      simp only [Option.map_some', h2, Bool.false_eq_true, if_false]
  · rw [if_neg h, List.find?_append]
    cases hf : m.find? (fun e => e.1 == k') with
    | none =>
      have : (((k, v) : String × α).1 == k') = false := by
        rw [beq_eq_false_iff_ne]
        exact fun hh => hne hh.symm
      simp [hf, this]
    | some e => simp [hf]

theorem mapHas_mapSet_self {α : Type} (m : List (String × α)) (k : String)
    (v : α) : mapHas (mapSet m k v) k = true := by
  have := mapGet_mapSet_self m k v
  unfold mapGet at this
  unfold mapHas mapSet at *
  by_cases h : (m.find? (fun e => e.1 == k)).isSome
  · rw [if_pos h] at this ⊢
    cases hf : (m.map fun e => if e.1 == k then (k, v) else e).find?
        (fun e => e.1 == k) with
    | none => rw [hf] at this; simp at this
    | some e => simp [hf]
  · rw [if_neg h] at this ⊢
    cases hf : (m ++ [(k, v)]).find? (fun e => e.1 == k) with
    | none => rw [hf] at this; simp at this
    | some e => simp [hf]

theorem mapHas_mapSet_of {α : Type} (m : List (String × α)) (k k' : String)
    (v : α) (h : mapHas m k' = true) : mapHas (mapSet m k v) k' = true := by
  by_cases hkk : k' = k
  · subst hkk; exact mapHas_mapSet_self m k' v
  · unfold mapHas at h ⊢
    have := mapGet_mapSet_ne m k k' v hkk
    unfold mapGet at this
    cases hf : (mapSet m k v).find? (fun e => e.1 == k') with
    | none =>
      rw [hf] at this
      cases hg : m.find? (fun e => e.1 == k') with
      | none => rw [hg] at h; simp at h
      | some e => rw [hg] at this; simp at this
    | some e => simp [hf]

/-! ### Equation lemmas for the three seller tools -/

theorem negotiatePrice_snd (s : ServerState) (rid : String) (o : ℚ)
    (nid : String) (r : DataResource)
    (hr : dataCatalogue.find? (fun x => x.id == rid) = some r) :
    (negotiatePrice s rid o nid).2 = evalOffer r o := by
  unfold negotiatePrice
  rw [hr]

theorem negotiatePrice_of_not_found (s : ServerState) (rid : String) (o : ℚ)
    (nid : String)
    (hr : dataCatalogue.find? (fun x => x.id == rid) = none) :
    negotiatePrice s rid o nid = (s, .error "Resource not found") := by
  unfold negotiatePrice
  rw [hr]

theorem negotiatePrice_fst_fresh (s : ServerState) (rid : String) (o : ℚ)
    (nid : String) (r : DataResource)
    (hr : dataCatalogue.find? (fun x => x.id == rid) = some r)
    (h0 : mapGet s.pendingNegotiations nid = none) :
    (negotiatePrice s rid o nid).1 =
      { s with pendingNegotiations :=
          (mapSet s.pendingNegotiations nid
            { resource := r, currentOffer := o, negotiationRound := 1
            , paymentToken := none }) } := by
  unfold negotiatePrice
  rw [hr]
  simp only [h0]

theorem negotiatePrice_fst_existing (s : ServerState) (rid : String) (o : ℚ)
    (nid : String) (r : DataResource) (neg : PendingNegotiation)
    (hr : dataCatalogue.find? (fun x => x.id == rid) = some r)
    (hm : mapGet s.pendingNegotiations nid = some neg) :
    (negotiatePrice s rid o nid).1 =
      { s with pendingNegotiations :=
          (mapSet s.pendingNegotiations nid
            { neg with
              currentOffer := o
            , negotiationRound := neg.negotiationRound + 1 }) } := by
  unfold negotiatePrice
  rw [hr]
  simp only [hm]

theorem createPayment_of_not_found (s : ServerState) (rid : String) (p : ℚ)
    (nid tok : String)
    (hr : dataCatalogue.find? (fun x => x.id == rid) = none) :
    createDataPaymentRequest s rid p nid tok = (s, .error "Resource not found") := by
  unfold createDataPaymentRequest
  rw [hr]

theorem createPayment_snd (s : ServerState) (rid : String) (p : ℚ)
    (nid tok : String) (r : DataResource)
    (hr : dataCatalogue.find? (fun x => x.id == rid) = some r) :
    (createDataPaymentRequest s rid p nid tok).2 =
      .ok (p * 100) ("Purchase: " ++ r.name) tok p := by
  unfold createDataPaymentRequest
  rw [hr]

theorem createPayment_fst_existing (s : ServerState) (rid : String) (p : ℚ)
    (nid tok : String) (r : DataResource) (neg : PendingNegotiation)
    (hr : dataCatalogue.find? (fun x => x.id == rid) = some r)
    (hm : mapGet s.pendingNegotiations nid = some neg) :
    (createDataPaymentRequest s rid p nid tok).1 =
      { s with
        pendingNegotiations :=
          (mapSet s.pendingNegotiations nid
            { neg with paymentToken := some tok })
      , lastProvidedPaymentToken := some tok } := by
  unfold createDataPaymentRequest
  rw [hr]
  simp only [hm]

theorem createPayment_fst_missing (s : ServerState) (rid : String) (p : ℚ)
    (nid tok : String) (r : DataResource)
    (hr : dataCatalogue.find? (fun x => x.id == rid) = some r)
    (h0 : mapGet s.pendingNegotiations nid = none) :
    (createDataPaymentRequest s rid p nid tok).1 =
      { s with lastProvidedPaymentToken := some tok } := by
  unfold createDataPaymentRequest
  rw [hr]
  simp only [h0]

theorem createPaymentV2_fst_missing (s : ServerState) (rid : String) (p : ℚ)
    (nid tok : String) (r : DataResource)
    (hr : dataCatalogue.find? (fun x => x.id == rid) = some r)
    (h0 : mapGet s.pendingNegotiations nid = none) :
    (createDataPaymentRequestV2 s rid p nid tok).1 =
      { s with pendingNegotiations :=
          (mapSet s.pendingNegotiations nid
            { resource := r, currentOffer := p, negotiationRound := 1
            , paymentToken := some tok }) } := by
  unfold createDataPaymentRequestV2
  rw [hr]
  simp only [h0]

theorem provideAccess_of_no_carrier (s : ServerState) (t rcpt : String)
    (ts : ℕ) (rnd : String)
    (h : s.pendingNegotiations.find?
        (fun e => e.2.paymentToken == some t) = none) :
    provideAccessDataURL s t rcpt ts rnd =
      (s, .error "Payment token not found or invalid") := by
  unfold provideAccessDataURL
  rw [h]

theorem provideAccess_of_completed (s : ServerState) (t rcpt : String)
    (ts : ℕ) (rnd : String) (nid : String) (neg : PendingNegotiation)
    (h : s.pendingNegotiations.find?
        (fun e => e.2.paymentToken == some t) = some (nid, neg))
    (hc : mapHas s.completedTransactions t = true) :
    provideAccessDataURL s t rcpt ts rnd =
      (s, .error "This transaction has already been completed") := by
  unfold provideAccessDataURL
  rw [h]
  simp only [hc, if_true]

theorem provideAccess_of_fresh (s : ServerState) (t rcpt : String)
    (ts : ℕ) (rnd : String) (nid : String) (neg : PendingNegotiation)
    (h : s.pendingNegotiations.find?
        (fun e => e.2.paymentToken == some t) = some (nid, neg))
    (hc : mapHas s.completedTransactions t = false) :
    provideAccessDataURL s t rcpt ts rnd =
      ({ s with
          completedTransactions :=
            (mapSet s.completedTransactions t
              { resourceId := neg.resource.id, finalPrice := neg.currentOffer })
        , pendingNegotiations := mapDelete s.pendingNegotiations nid },
       .success
         ("https://data-provider.example.com/download/" ++ neg.resource.id
           ++ "?token=" ++ generateAccessToken neg.resource.id ts rnd)
         (generateAccessToken neg.resource.id ts rnd)) := by
  unfold provideAccessDataURL
  rw [h]
  simp only [hc, Bool.false_eq_true, if_false]

/-! ### Catalogue facts and counter-offer arithmetic -/

theorem catalogue_min_le_list (r : DataResource) (hmem : r ∈ dataCatalogue) :
    r.minimumPrice ≤ r.listPrice := by
  simp only [dataCatalogue, List.mem_cons, List.not_mem_nil, or_false] at hmem
  rcases hmem with rfl | rfl | rfl <;>
    norm_num [MIN_PRICES_housing, MIN_PRICES_ticker, MIN_PRICES_llm_paper]

theorem max_counter_eq (M L o : ℚ) (n : ℤ) (hn : (n : ℚ) = M)
    (h2 : L ≤ M + 2) (ho : o < M) :
    max M ((⌊(o + L) / 2⌋ : ℤ) : ℚ) = M := by
  have h1 : (o + L) / 2 < ((n + 1 : ℤ) : ℚ) := by
    push_cast
    rw [hn]
    linarith
  have h3 : ⌊(o + L) / 2⌋ < n + 1 := Int.floor_lt.mpr h1
  have h4 : ⌊(o + L) / 2⌋ ≤ n := Int.lt_add_one_iff.mp h3
  have h5 : ((⌊(o + L) / 2⌋ : ℤ) : ℚ) ≤ (n : ℚ) := by exact_mod_cast h4
  exact max_eq_left (h5.trans (le_of_eq hn))

theorem counter_eq_min (r : DataResource) (hmem : r ∈ dataCatalogue) (o : ℚ)
    (ho : o < r.minimumPrice) :
    max r.minimumPrice ((⌊(o + r.listPrice) / 2⌋ : ℤ) : ℚ) =
      r.minimumPrice := by
  simp only [dataCatalogue, List.mem_cons, List.not_mem_nil, or_false] at hmem
  rcases hmem with rfl | rfl | rfl
  · exact max_counter_eq _ _ o 8 (by norm_num [MIN_PRICES_housing])
      (by norm_num [MIN_PRICES_housing]) ho
  · exact max_counter_eq _ _ o 10 (by norm_num [MIN_PRICES_ticker])
      (by norm_num [MIN_PRICES_ticker]) ho
  · exact max_counter_eq _ _ o 12 (by norm_num [MIN_PRICES_llm_paper])
      (by norm_num [MIN_PRICES_llm_paper]) ho

theorem counter_le_list (r : DataResource) (hmem : r ∈ dataCatalogue) (o : ℚ)
    (ho : o < r.minimumPrice) :
    max r.minimumPrice ((⌊(o + r.listPrice) / 2⌋ : ℤ) : ℚ) ≤ r.listPrice := by
  have hML := catalogue_min_le_list r hmem
  have hfle : ((⌊(o + r.listPrice) / 2⌋ : ℤ) : ℚ) ≤ (o + r.listPrice) / 2 :=
    Int.floor_le _
  have hhalf : (o + r.listPrice) / 2 ≤ r.listPrice := by linarith
  exact max_le hML (hfle.trans hhalf)

theorem evalOffer_countered_inv (r : DataResource) (o : ℚ)
    (h : ∃ c m, evalOffer r o = .countered c m) :
    o < r.minimumPrice ∧
      evalOffer r o =
        .countered (max r.minimumPrice
          ((⌊(o + r.listPrice) / 2⌋ : ℤ) : ℚ)) r.minimumPrice := by
  obtain ⟨c, m, hcm⟩ := h
  unfold evalOffer at hcm ⊢
  split_ifs at hcm with h1 h2
  exact ⟨lt_of_not_ge h2, by rw [if_neg h1, if_neg h2]⟩

theorem evalOffer_countered_eq (r : DataResource) (hmem : r ∈ dataCatalogue)
    (o : ℚ) (h : ∃ c m, evalOffer r o = .countered c m) :
    o < r.minimumPrice ∧
      evalOffer r o = .countered r.minimumPrice r.minimumPrice := by
  obtain ⟨ho, heq⟩ := evalOffer_countered_inv r o h
  exact ⟨ho, by rw [heq, counter_eq_min r hmem o ho]⟩

/-! ### The process-global last payment token -/

/-- A createDataPaymentRequest invocation that reaches the payment SDK
(the resource id is in the catalogue). -/
def isSuccessfulCreate : Op → Bool
  | .createPayment rid _ _ _ => (dataCatalogue.find? (fun r => r.id == rid)).isSome
  | _ => false

theorem step_last (s : ServerState) (op : Op) :
    (step s op).lastProvidedPaymentToken =
      lastMintedUpdate s.lastProvidedPaymentToken op := by
  cases op with
  | negotiate rid o nid =>
    show (negotiatePrice s rid o nid).1.lastProvidedPaymentToken = _
    unfold negotiatePrice lastMintedUpdate
    cases hf : dataCatalogue.find? (fun r => r.id == rid) <;> simp
  | createPayment rid p nid tok =>
    show (createDataPaymentRequest s rid p nid tok).1.lastProvidedPaymentToken = _
    unfold createDataPaymentRequest lastMintedUpdate
    cases hf : dataCatalogue.find? (fun r => r.id == rid) <;> simp [hf]
  | provideAccess t rcpt ts rnd =>
    show (provideAccessDataURL s t rcpt ts rnd).1.lastProvidedPaymentToken = _
    unfold provideAccessDataURL lastMintedUpdate
    cases hf : s.pendingNegotiations.find? (fun e => e.2.paymentToken == some t)
    · simp
    · by_cases hc : mapHas s.completedTransactions t <;> simp [hc]

theorem run_last (ops : List Op) :
    ∀ s : ServerState, (run s ops).lastProvidedPaymentToken =
      ops.foldl lastMintedUpdate s.lastProvidedPaymentToken := by
  induction ops with
  | nil => intro s; rfl
  | cons op t ih =>
    intro s
    show (run (step s op) t).lastProvidedPaymentToken = _
    rw [ih (step s op), step_last]
    rfl

theorem foldl_update_eq_none (ops : List Op) :
    ∀ acc : Option String, ops.foldl lastMintedUpdate acc = none ↔
      acc = none ∧ ∀ op ∈ ops, isSuccessfulCreate op = false := by
  induction ops with
  | nil => simp
  | cons op t ih =>
    intro acc
    rw [List.foldl_cons, ih]
    constructor
    · rintro ⟨h1, h2⟩
      cases op with
      | createPayment rid p nid tok =>
        by_cases hf : (dataCatalogue.find? (fun r => r.id == rid)).isSome
        · exfalso
          simp [lastMintedUpdate, hf] at h1
        · refine ⟨by simpa [lastMintedUpdate, hf] using h1, ?_⟩
          intro op2 hop
          rcases List.mem_cons.mp hop with rfl | hmem
          · simpa [isSuccessfulCreate] using hf
          · exact h2 op2 hmem
      | negotiate rid o nid =>
        refine ⟨by simpa [lastMintedUpdate] using h1, ?_⟩
        intro op2 hop
        rcases List.mem_cons.mp hop with rfl | hmem
        · rfl
        · exact h2 op2 hmem
      | provideAccess tk rcpt ts rnd =>
        refine ⟨by simpa [lastMintedUpdate] using h1, ?_⟩
        intro op2 hop
        rcases List.mem_cons.mp hop with rfl | hmem
        · rfl
        · exact h2 op2 hmem
    · rintro ⟨rfl, h2⟩
      refine ⟨?_, fun op2 hop => h2 op2 (List.mem_cons_of_mem _ hop)⟩
      have hhead : isSuccessfulCreate op = false := h2 op (List.mem_cons_self _ _)
      cases op with
      | createPayment rid p nid tok =>
        have hf : (dataCatalogue.find? (fun r => r.id == rid)).isSome = false := by
          simpa [isSuccessfulCreate] using hhead
        simp [lastMintedUpdate, hf]
      | negotiate rid o nid => rfl
      | provideAccess tk rcpt ts rnd => rfl

/-! ### Session evolution under repeated offers -/

theorem runOffersResults_eq_map (rid nid : String) (r : DataResource)
    (hr : dataCatalogue.find? (fun x => x.id == rid) = some r)
    (os : List ℚ) : ∀ s : ServerState,
    runOffersResults s rid nid os = os.map (evalOffer r) := by
  induction os with
  | nil => intro s; rfl
  | cons o rest ih =>
    intro s
    show (negotiatePrice s rid o nid).2 ::
        runOffersResults (negotiatePrice s rid o nid).1 rid nid rest = _
    rw [negotiatePrice_snd s rid o nid r hr, ih]
    rfl

theorem run_offers_append_one (rid nid : String) (r : DataResource)
    (hr : dataCatalogue.find? (fun x => x.id == rid) = some r) :
    ∀ (os : List ℚ) (olast : ℚ) (s : ServerState) (m : PendingNegotiation),
      mapGet s.pendingNegotiations nid = some m →
      mapGet (run s (offerOps rid nid (os ++ [olast]))).pendingNegotiations
          nid =
        some { resource := m.resource, currentOffer := olast
             , negotiationRound := m.negotiationRound + os.length + 1
             , paymentToken := m.paymentToken } := by
  intro os
  induction os with
  | nil =>
    intro olast s m hm
    show mapGet ((negotiatePrice s rid olast nid).1).pendingNegotiations nid = _
    rw [negotiatePrice_fst_existing s rid olast nid r m hr hm]
    simp only []
    rw [mapGet_mapSet_self]
    rfl
  | cons o t ih =>
    intro olast s m hm
    show mapGet (run ((negotiatePrice s rid o nid).1)
        (offerOps rid nid (t ++ [olast]))).pendingNegotiations nid = _
    have hm2 : mapGet ((negotiatePrice s rid o nid).1).pendingNegotiations nid =
        some { m with
          currentOffer := o
        , negotiationRound := m.negotiationRound + 1 } := by
      rw [negotiatePrice_fst_existing s rid o nid r m hr hm]
      simp only []
      rw [mapGet_mapSet_self]
    rw [ih olast _ _ hm2]
    have harith : m.negotiationRound + 1 + t.length + 1 =
        m.negotiationRound + (o :: t).length + 1 := by
      simp [List.length_cons]
      omega
    simp only [harith]

theorem run_offers_fresh (rid nid : String) (r : DataResource)
    (hr : dataCatalogue.find? (fun x => x.id == rid) = some r)
    (os : List ℚ) (olast : ℚ) (s : ServerState)
    (h0 : mapGet s.pendingNegotiations nid = none) :
    mapGet (run s (offerOps rid nid (os ++ [olast]))).pendingNegotiations
        nid =
      some { resource := r, currentOffer := olast
           , negotiationRound := os.length + 1, paymentToken := none } := by
  cases os with
  | nil =>
    show mapGet ((negotiatePrice s rid olast nid).1).pendingNegotiations nid = _
    rw [negotiatePrice_fst_fresh s rid olast nid r hr h0]
    simp only []
    rw [mapGet_mapSet_self]
    rfl
  | cons o t =>
    show mapGet (run ((negotiatePrice s rid o nid).1)
        (offerOps rid nid (t ++ [olast]))).pendingNegotiations nid = _
    have hm2 : mapGet ((negotiatePrice s rid o nid).1).pendingNegotiations nid =
        some { resource := r, currentOffer := o, negotiationRound := 1
             , paymentToken := none } := by
      rw [negotiatePrice_fst_fresh s rid o nid r hr h0]
      simp only []
      rw [mapGet_mapSet_self]
    rw [run_offers_append_one rid nid r hr t olast _ _ hm2]
    have : 1 + t.length = t.length + 1 := by omega
    simp [List.length_cons, this]

/-! ### Completed transactions are never removed -/

theorem step_completed_persist (s : ServerState) (op : Op) (t : String)
    (h : mapHas s.completedTransactions t = true) :
    mapHas (step s op).completedTransactions t = true := by
  cases op with
  | negotiate rid o nid =>
    show mapHas (negotiatePrice s rid o nid).1.completedTransactions t = true
    unfold negotiatePrice
    cases hf : dataCatalogue.find? (fun x => x.id == rid) <;> simpa using h
  | createPayment rid p nid tok =>
    show mapHas
      (createDataPaymentRequest s rid p nid tok).1.completedTransactions t = true
    unfold createDataPaymentRequest
    cases hf : dataCatalogue.find? (fun x => x.id == rid) <;> simpa using h
  | provideAccess tk rcpt ts rnd =>
    show mapHas (provideAccessDataURL s tk rcpt ts rnd).1.completedTransactions
        t = true
    unfold provideAccessDataURL
    cases hf : s.pendingNegotiations.find?
        (fun e => e.2.paymentToken == some tk) with
    | none => simpa using h
    | some e =>
      by_cases hc : mapHas s.completedTransactions tk
      · simpa [hc] using h
      · simp only [hc, Bool.false_eq_true, if_false]
        exact mapHas_mapSet_of _ _ _ _ h
  
theorem run_completed_persist (ops : List Op) (t : String) :
    ∀ s : ServerState, mapHas s.completedTransactions t = true →
      mapHas (run s ops).completedTransactions t = true := by
  induction ops with
  | nil => intro s h; exact h
  | cons op rest ih =>
    intro s h
    exact ih (step s op) (step_completed_persist s op t h)

theorem provideAccess_err_of_completed (s : ServerState) (t rcpt : String)
    (ts : ℕ) (rnd : String)
    (hc : mapHas s.completedTransactions t = true) :
    (provideAccessDataURL s t rcpt ts rnd).2 =
        .error "Payment token not found or invalid" ∨
      (provideAccessDataURL s t rcpt ts rnd).2 =
        .error "This transaction has already been completed" := by
  cases hf : s.pendingNegotiations.find?
      (fun e => e.2.paymentToken == some t) with
  | none =>
    left
    rw [provideAccess_of_no_carrier s t rcpt ts rnd hf]
  | some e =>
    right
    rw [provideAccess_of_completed s t rcpt ts rnd e.1 e.2 (by rw [← hf]) hc]

/-! ### Claim theorems -/

/-- Claim C2: for every payment token carried by no active negotiation
session (in particular a token never issued), provideAccessDataURL fails
with the "Payment token not found or invalid" structured error, releases
no artifact, and leaves the whole state — in particular the sessions map
and the completed-transactions map — unchanged. -/
theorem C2_unknown_token_rejected (s : ServerState) (t rcpt : String)
    (ts : ℕ) (rnd : String)
    (h : s.pendingNegotiations.find?
        (fun e => e.2.paymentToken == some t) = none) :
    provideAccessDataURL s t rcpt ts rnd =
      (s, .error "Payment token not found or invalid") :=
  provideAccess_of_no_carrier s t rcpt ts rnd h

/-- Witness for C2: the initial state carries no sessions at all, so any
token is unknown there. -/
theorem C2_witness :
    provideAccessDataURL initialState "ghost_token" "r1" 0 "x" =
      (initialState, .error "Payment token not found or invalid") :=
  C2_unknown_token_rejected initialState "ghost_token" "r1" 0 "x" (by decide)

/-- Claim C3: for every catalog resource and every offered price o,
negotiatePrice accepts at exactly the list price when o is at least the
list price (never above it), and accepts at exactly o when
minimum_price ≤ o < list_price. -/
theorem C3_accepts_at_list_or_offer (s : ServerState) (rid nid : String)
    (r : DataResource) (o : ℚ)
    (hr : dataCatalogue.find? (fun x => x.id == rid) = some r) :
    (r.listPrice ≤ o →
      (negotiatePrice s rid o nid).2 = .accepted r.listPrice) ∧
    (r.minimumPrice ≤ o → o < r.listPrice →
      (negotiatePrice s rid o nid).2 = .accepted o) := by
  constructor
  · intro h
    rw [negotiatePrice_snd s rid o nid r hr]
    unfold evalOffer
    rw [if_pos h]
  · intro h1 h2
    rw [negotiatePrice_snd s rid o nid r hr]
    unfold evalOffer
    rw [if_neg (not_le.mpr h2), if_pos h1]

/-- Witness for C3 at the housing resource: an offer of 12 (above list 10)
is accepted at 10, and an offer of 8 (the floor) is accepted at 8. -/
theorem C3_witness :
    (negotiatePrice initialState "housing_inventory_2024" 12 "n1").2 =
      .accepted housingResource.listPrice ∧
    (negotiatePrice initialState "housing_inventory_2024" 8 "n1").2 =
      .accepted 8 :=
  ⟨(C3_accepts_at_list_or_offer initialState "housing_inventory_2024" "n1"
      housingResource 12 (by decide)).1
      (by norm_num [housingResource]),
   (C3_accepts_at_list_or_offer initialState "housing_inventory_2024" "n1"
      housingResource 8 (by decide)).2
      (by norm_num [housingResource, MIN_PRICES_housing])
      (by norm_num [housingResource])⟩

/-- Claim C4: for every catalog resource and every offered price o below
the minimum price, negotiatePrice rejects and counters with
max(minimum_price, floor((o + list_price) / 2)), and this counter always
lies in the interval of minimum price to list price. -/
theorem C4_counter_in_range (s : ServerState) (rid nid : String)
    (r : DataResource) (o : ℚ)
    (hr : dataCatalogue.find? (fun x => x.id == rid) = some r)
    (ho : o < r.minimumPrice) :
    (negotiatePrice s rid o nid).2 =
      .countered (max r.minimumPrice
        ((⌊(o + r.listPrice) / 2⌋ : ℤ) : ℚ)) r.minimumPrice ∧
    r.minimumPrice ≤
      max r.minimumPrice ((⌊(o + r.listPrice) / 2⌋ : ℤ) : ℚ) ∧
    max r.minimumPrice ((⌊(o + r.listPrice) / 2⌋ : ℤ) : ℚ) ≤ r.listPrice := by
  have hmem : r ∈ dataCatalogue := List.mem_of_find?_eq_some hr
  refine ⟨?_, le_max_left _ _, counter_le_list r hmem o ho⟩
  rw [negotiatePrice_snd s rid o nid r hr]
  unfold evalOffer
  have hML := catalogue_min_le_list r hmem
  rw [if_neg (not_le.mpr (lt_of_lt_of_le ho hML)), if_neg (not_le.mpr ho)]

/-- Witness for C4 at the housing resource with offer 5: the result is a
counter-offer of max(8, floor((5+10)/2)) and it lies between 8 and 10. -/
theorem C4_witness :
    (negotiatePrice initialState "housing_inventory_2024" 5 "n1").2 =
      .countered (max housingResource.minimumPrice
        ((⌊((5 : ℚ) + housingResource.listPrice) / 2⌋ : ℤ) : ℚ))
        housingResource.minimumPrice ∧
    housingResource.minimumPrice ≤
      max housingResource.minimumPrice
        ((⌊((5 : ℚ) + housingResource.listPrice) / 2⌋ : ℤ) : ℚ) ∧
    max housingResource.minimumPrice
        ((⌊((5 : ℚ) + housingResource.listPrice) / 2⌋ : ℤ) : ℚ) ≤
      housingResource.listPrice :=
  C4_counter_in_range initialState "housing_inventory_2024" "n1"
    housingResource 5 (by decide)
    (by norm_num [housingResource, MIN_PRICES_housing])

/-- Claim C7: for every resource id absent from the catalogue, both
negotiatePrice and createDataPaymentRequest return the structured
"Resource not found" error result and leave the whole state unchanged —
no session is created or mutated, no completed transaction is recorded,
and (since the error return happens before the SDK call site) no payment
SDK call is made — the `ok` result that would record the SDK invocation
is never produced. -/
theorem C7_unknown_resource_is_structured_error (s : ServerState)
    (rid nid tok : String) (o p : ℚ)
    (h : dataCatalogue.find? (fun x => x.id == rid) = none) :
    negotiatePrice s rid o nid = (s, .error "Resource not found") ∧
    createDataPaymentRequest s rid p nid tok =
      (s, .error "Resource not found") :=
  ⟨negotiatePrice_of_not_found s rid o nid h,
   createPayment_of_not_found s rid p nid tok h⟩

/-- Witness for C7: the id "nonexistent_dataset" is not in the catalogue. -/
theorem C7_witness :
    negotiatePrice initialState "nonexistent_dataset" 5 "n1" =
      (initialState, .error "Resource not found") ∧
    createDataPaymentRequest initialState "nonexistent_dataset" 7 "n1"
        "tok" = (initialState, .error "Resource not found") :=
  C7_unknown_resource_is_structured_error initialState "nonexistent_dataset"
    "n1" "tok" 5 7 (by decide)

/-- Claim C10: on every successful artifact release, the completed
transaction recorded for the payment token carries finalPrice equal to the
matched session's currentOffer at release time (the last price passed to
negotiatePrice for that session), not the agreed price the token was
minted for. -/
theorem C10_finalPrice_is_currentOffer (s : ServerState) (t rcpt : String)
    (ts : ℕ) (rnd : String) (nid : String) (neg : PendingNegotiation)
    (h : s.pendingNegotiations.find?
        (fun e => e.2.paymentToken == some t) = some (nid, neg))
    (hc : mapHas s.completedTransactions t = false) :
    mapGet (provideAccessDataURL s t rcpt ts rnd).1.completedTransactions t =
      some { resourceId := neg.resource.id
           , finalPrice := neg.currentOffer } := by
  rw [provideAccess_of_fresh s t rcpt ts rnd nid neg h hc]
  exact mapGet_mapSet_self _ _ _

/-- Witness for C10: negotiate at 9, mint the token for the agreed price
of 9, negotiate once more at 5, then release: the recorded final price is
5 — changed by the negotiatePrice call between issuance and release — and
not the minted price 9. -/
theorem C10_witness :
    mapGet (provideAccessDataURL
        ((negotiatePrice ((createDataPaymentRequest
            ((negotiatePrice initialState "housing_inventory_2024" 9 "n1").1)
            "housing_inventory_2024" 9 "n1" "tok").1)
          "housing_inventory_2024" 5 "n1").1)
        "tok" "rcpt" 0 "x").1.completedTransactions "tok" =
      some { resourceId := "housing_inventory_2024", finalPrice := 5 } ∧
    (5 : ℚ) ≠ 9 := by
  refine ⟨?_, by norm_num⟩
  exact C10_finalPrice_is_currentOffer _ "tok" "rcpt" 0 "x" "n1"
    { resource := housingResource, currentOffer := 5, negotiationRound := 2
    , paymentToken := some "tok" } (by decide) (by decide)

/-- Claim C9: the last provided payment token is a single process-global
value, not per-session state: after any trace of handler invocations from
process start, getLastPaymentToken returns the token minted by the most
recent successful createDataPaymentRequest across all sessions (the
session id plays no role in lastMintedToken), and it returns none exactly
when no createDataPaymentRequest has ever reached the SDK. -/
theorem C9_last_token_is_process_global (ops : List Op) :
    getLastPaymentToken (run initialState ops) = lastMintedToken ops ∧
    (getLastPaymentToken (run initialState ops) = none ↔
      ∀ op ∈ ops, isSuccessfulCreate op = false) := by
  have h1 : getLastPaymentToken (run initialState ops) = lastMintedToken ops := by
    show (run initialState ops).lastProvidedPaymentToken = _
    rw [run_last ops initialState]
    rfl
  refine ⟨h1, ?_⟩
  rw [h1]
  unfold lastMintedToken
  rw [foldl_update_eq_none ops none]
  simp

theorem filterMap_eq_map_const {β : Type} (l : List ℚ) (f : ℚ → Option β)
    (c : β) (h : ∀ o ∈ l, f o = some c) :
    l.filterMap f = l.map (fun _ => c) := by
  induction l with
  | nil => rfl
  | cons o t ih =>
    rw [List.filterMap_cons, h o (List.mem_cons_self _ _),
      ih (fun o2 ho2 => h o2 (List.mem_cons_of_mem _ ho2))]
    rfl

theorem chain_le_map_const (l : List ℚ) (c : ℚ) :
    List.Chain' (fun a b => a ≤ b) (l.map fun _ => c) := by
  induction l with
  | nil => simp
  | cons o t ih =>
    cases t with
    | nil => simp
    | cons o2 t2 =>
      rw [List.map_cons]
      rw [List.map_cons] at ih ⊢
      exact List.chain'_cons.mpr ⟨le_refl c, ih⟩

/-- Claim C5: over any sequence of negotiatePrice calls with the same
session id on a fixed catalog resource in which every call returns a
counter-offer, the counter-offers never decrease, each counter-offer is at
least the offer that triggered it, no counter-offer exceeds the list
price, and none is below the minimum price. -/
theorem C5_counters_converge (s : ServerState) (rid nid : String)
    (r : DataResource) (os : List ℚ)
    (hr : dataCatalogue.find? (fun x => x.id == rid) = some r)
    (hall : ∀ res ∈ runOffersResults s rid nid os,
      ∃ c m, res = NegotiateResult.countered c m) :
    List.Chain' (fun a b => a ≤ b)
        ((runOffersResults s rid nid os).filterMap counterOf) ∧
    (∀ (k : ℕ) (h1 : k < os.length)
        (h2 : k < ((runOffersResults s rid nid os).filterMap counterOf).length),
      os[k] ≤ ((runOffersResults s rid nid os).filterMap counterOf)[k]) ∧
    (∀ c ∈ (runOffersResults s rid nid os).filterMap counterOf,
      r.minimumPrice ≤ c ∧ c ≤ r.listPrice) := by
  have hmem : r ∈ dataCatalogue := List.mem_of_find?_eq_some hr
  have hres : runOffersResults s rid nid os = os.map (evalOffer r) :=
    runOffersResults_eq_map rid nid r hr os s
  have hkey : ∀ o ∈ os, o < r.minimumPrice ∧
      evalOffer r o = .countered r.minimumPrice r.minimumPrice := by
    intro o ho
    refine evalOffer_countered_eq r hmem o (hall _ ?_)
    rw [hres]
    exact List.mem_map_of_mem _ ho
  have hfm : (runOffersResults s rid nid os).filterMap counterOf =
      os.map (fun _ => r.minimumPrice) := by
    rw [hres, List.filterMap_map]
    exact filterMap_eq_map_const os _ r.minimumPrice
      (fun o ho => by rw [Function.comp_apply, (hkey o ho).2]; rfl)
  refine ⟨?_, ?_, ?_⟩
  · rw [hfm]
    exact chain_le_map_const os r.minimumPrice
  · intro k h1 h2
    have hk := (hkey (os[k]) (os.getElem_mem h1)).1
    simp only [hfm, List.getElem_map]
    exact le_of_lt hk
  · intro c hc
    rw [hfm] at hc
    obtain ⟨o, ho, rfl⟩ := List.mem_map.mp hc
    exact ⟨le_refl _, catalogue_min_le_list r hmem⟩

/-- Witness for C5: two successive lowball offers of 5 and 6 on the
housing resource both draw counter-offers; the theorem's conclusions hold
for that concrete run. -/
theorem C5_witness :
    List.Chain' (fun a b => a ≤ b)
        ((runOffersResults initialState "housing_inventory_2024" "n1"
          [5, 6]).filterMap counterOf) ∧
    (∀ (k : ℕ) (h1 : k < ([5, 6] : List ℚ).length)
        (h2 : k < ((runOffersResults initialState "housing_inventory_2024"
          "n1" [5, 6]).filterMap counterOf).length),
      ([5, 6] : List ℚ)[k] ≤
        ((runOffersResults initialState "housing_inventory_2024" "n1"
          [5, 6]).filterMap counterOf)[k]) ∧
    (∀ c ∈ (runOffersResults initialState "housing_inventory_2024" "n1"
        [5, 6]).filterMap counterOf,
      housingResource.minimumPrice ≤ c ∧ c ≤ housingResource.listPrice) := by
  refine C5_counters_converge initialState "housing_inventory_2024" "n1"
    housingResource [5, 6] (by decide) ?_
  have hres : runOffersResults initialState "housing_inventory_2024" "n1"
      [5, 6] = [.countered 8 8, .countered 8 8] := by
    norm_num [runOffersResults, negotiatePrice, evalOffer, dataCatalogue,
      initialState, mapGet, mapSet, MIN_PRICES_housing]
  rw [hres]
  intro res hres2
  rcases List.mem_cons.mp hres2 with rfl | h2
  · exact ⟨8, 8, rfl⟩
  · rcases List.mem_cons.mp h2 with rfl | h3
    · exact ⟨8, 8, rfl⟩
    · cases h3

/-- Claim C8: a sequence of negotiatePrice calls with the same fresh
session id and a known catalog resource, with nothing interleaved: after
the k-th call (indices from 0 here: after call k+1) the session exists,
its round counter is k+1, its current offer is the (k+1)-th offered
price, and no payment token is attached; the first call created it with
round 1 and each later call replaced the offer and incremented the
counter. -/
theorem C8_rounds_and_offer (s : ServerState) (rid nid : String)
    (r : DataResource) (os : List ℚ)
    (hr : dataCatalogue.find? (fun x => x.id == rid) = some r)
    (h0 : mapGet s.pendingNegotiations nid = none)
    (k : ℕ) (hk : k < os.length) :
    mapGet (run s (offerOps rid nid (os.take (k + 1)))).pendingNegotiations
        nid =
      some { resource := r, currentOffer := os[k]
           , negotiationRound := k + 1, paymentToken := none } := by
  have htake : os.take (k + 1) = os.take k ++ [os[k]] := by
    rw [List.take_succ, List.getElem?_eq_getElem hk]
    rfl
  rw [htake, run_offers_fresh rid nid r hr (os.take k) (os[k]) s h0,
    List.length_take_of_le (le_of_lt hk)]

/-- Witness for C8: offers 5 then 6 on the housing resource with fresh
session id "n1": after the second call the session holds offer 6 and
round 2. -/
theorem C8_witness :
    mapGet (run initialState (offerOps "housing_inventory_2024" "n1"
        (([5, 6] : List ℚ).take 2))).pendingNegotiations "n1" =
      some { resource := housingResource, currentOffer := 6
           , negotiationRound := 2, paymentToken := none } := by
  have h := C8_rounds_and_offer initialState "housing_inventory_2024" "n1"
    housingResource [5, 6] (by decide) (by decide) 1 (by decide)
  simpa using h

/-- A state with one active session whose payment token "tok" was issued
and whose transaction is not yet completed. -/
def c1State : ServerState :=
  { pendingNegotiations :=
      [("n1", { resource := housingResource, currentOffer := 8
              , negotiationRound := 1, paymentToken := some "tok" })]
  , completedTransactions := []
  , lastProvidedPaymentToken := some "tok" }

/-- Counterexample to Claim C1 as stated: with a single session carrying
the token, the first provideAccessDataURL call succeeds, but the second
call with the same token fails with "Payment token not found or invalid"
— the matched session was deleted by the first call, so the scan comes up
empty before the completed-transactions check is ever reached — and not
with the "already completed" error the claim requires. -/
theorem C1_counterexample :
    (provideAccessDataURL c1State "tok" "r1" 0 "x").2 =
      .success
        "https://data-provider.example.com/download/housing_inventory_2024?token=access_housing_inventory_2024_0_x"
        "access_housing_inventory_2024_0_x" ∧
    (provideAccessDataURL (provideAccessDataURL c1State "tok" "r1" 0 "x").1
        "tok" "r2" 1 "y").2 =
      .error "Payment token not found or invalid" ∧
    (provideAccessDataURL (provideAccessDataURL c1State "tok" "r1" 0 "x").1
        "tok" "r2" 1 "y").2 ≠
      .error "This transaction has already been completed" :=
  ⟨by decide, by decide, by decide⟩

/-- Claim C1 (amended): if at the first call some active session carries
the (not yet completed) payment token, the first call succeeds and
returns an artifact; every later call with the same token fails — with
"This transaction has already been completed" when some active session
still carries the token, and otherwise (in particular immediately after
the first call deleted the only carrying session) with "Payment token not
found or invalid" — so a second artifact is never released for that
token, even after arbitrary further operations. -/
theorem C1_amended_no_double_release (s : ServerState) (t rcpt : String)
    (ts : ℕ) (rnd : String) (nid : String) (neg : PendingNegotiation)
    (h : s.pendingNegotiations.find?
        (fun e => e.2.paymentToken == some t) = some (nid, neg))
    (hc : mapHas s.completedTransactions t = false) :
    (provideAccessDataURL s t rcpt ts rnd).2 =
      .success
        ("https://data-provider.example.com/download/" ++ neg.resource.id
          ++ "?token=" ++ generateAccessToken neg.resource.id ts rnd)
        (generateAccessToken neg.resource.id ts rnd) ∧
    mapHas (provideAccessDataURL s t rcpt ts rnd).1.completedTransactions
        t = true ∧
    (∀ (ops : List Op) (rcpt2 : String) (ts2 : ℕ) (rnd2 : String),
      (provideAccessDataURL (run (provideAccessDataURL s t rcpt ts rnd).1
          ops) t rcpt2 ts2 rnd2).2 =
        .error "Payment token not found or invalid" ∨
      (provideAccessDataURL (run (provideAccessDataURL s t rcpt ts rnd).1
          ops) t rcpt2 ts2 rnd2).2 =
        .error "This transaction has already been completed") ∧
    (∀ (rcpt2 : String) (ts2 : ℕ) (rnd2 : String),
      carriesToken (provideAccessDataURL s t rcpt ts rnd).1 t = false →
      (provideAccessDataURL (provideAccessDataURL s t rcpt ts rnd).1 t
          rcpt2 ts2 rnd2).2 =
        .error "Payment token not found or invalid") ∧
    (∀ (rcpt2 : String) (ts2 : ℕ) (rnd2 : String),
      carriesToken (provideAccessDataURL s t rcpt ts rnd).1 t = true →
      (provideAccessDataURL (provideAccessDataURL s t rcpt ts rnd).1 t
          rcpt2 ts2 rnd2).2 =
        .error "This transaction has already been completed") := by
  have heq := provideAccess_of_fresh s t rcpt ts rnd nid neg h hc
  have hdone : mapHas
      (provideAccessDataURL s t rcpt ts rnd).1.completedTransactions t =
        true := by
    rw [heq]
    exact mapHas_mapSet_self _ _ _
  refine ⟨by rw [heq], hdone, ?_, ?_, ?_⟩
  · intro ops rcpt2 ts2 rnd2
    exact provideAccess_err_of_completed _ t rcpt2 ts2 rnd2
      (run_completed_persist ops t _ hdone)
  · intro rcpt2 ts2 rnd2 hcar
    unfold carriesToken at hcar
    cases hf : (provideAccessDataURL s t rcpt ts rnd).1.pendingNegotiations.find?
        (fun e => e.2.paymentToken == some t) with
    | none => rw [provideAccess_of_no_carrier _ t rcpt2 ts2 rnd2 hf]
    | some e => rw [hf] at hcar; cases hcar
  · intro rcpt2 ts2 rnd2 hcar
    unfold carriesToken at hcar
    cases hf : (provideAccessDataURL s t rcpt ts rnd).1.pendingNegotiations.find?
        (fun e => e.2.paymentToken == some t) with
    | none => rw [hf] at hcar; cases hcar
    | some e =>
      rw [provideAccess_of_completed _ t rcpt2 ts2 rnd2 e.1 e.2
        (by rw [← hf]) hdone]

/-- Witness for the amended C1 at the concrete state c1State. -/
theorem C1_amended_witness :
    (provideAccessDataURL c1State "tok" "r1" 0 "x").2 =
      .success
        ("https://data-provider.example.com/download/"
          ++ housingResource.id ++ "?token="
          ++ generateAccessToken housingResource.id 0 "x")
        (generateAccessToken housingResource.id 0 "x") ∧
    mapHas (provideAccessDataURL c1State "tok" "r1" 0
        "x").1.completedTransactions "tok" = true ∧
    (∀ (ops : List Op) (rcpt2 : String) (ts2 : ℕ) (rnd2 : String),
      (provideAccessDataURL (run (provideAccessDataURL c1State "tok" "r1" 0
          "x").1 ops) "tok" rcpt2 ts2 rnd2).2 =
        .error "Payment token not found or invalid" ∨
      (provideAccessDataURL (run (provideAccessDataURL c1State "tok" "r1" 0
          "x").1 ops) "tok" rcpt2 ts2 rnd2).2 =
        .error "This transaction has already been completed") ∧
    (∀ (rcpt2 : String) (ts2 : ℕ) (rnd2 : String),
      carriesToken (provideAccessDataURL c1State "tok" "r1" 0 "x").1 "tok"
          = false →
      (provideAccessDataURL (provideAccessDataURL c1State "tok" "r1" 0
          "x").1 "tok" rcpt2 ts2 rnd2).2 =
        .error "Payment token not found or invalid") ∧
    (∀ (rcpt2 : String) (ts2 : ℕ) (rnd2 : String),
      carriesToken (provideAccessDataURL c1State "tok" "r1" 0 "x").1 "tok"
          = true →
      (provideAccessDataURL (provideAccessDataURL c1State "tok" "r1" 0
          "x").1 "tok" rcpt2 ts2 rnd2).2 =
        .error "This transaction has already been completed") :=
  C1_amended_no_double_release c1State "tok" "r1" 0 "x" "n1"
    { resource := housingResource, currentOffer := 8, negotiationRound := 1
    , paymentToken := some "tok" } (by decide) (by decide)

/-- Counterexample to Claim C6 as stated: in the primary server,
createDataPaymentRequest on a fresh session id succeeds — the SDK is
invoked and returns its token — yet no session is created for that id:
the map lookup after the SDK call only mutates an existing session. -/
theorem C6_counterexample :
    (createDataPaymentRequest initialState "housing_inventory_2024" 9 "nX"
        "tokX").2 =
      .ok (9 * 100) ("Purchase: " ++ "US Housing Market Inventory 2024")
        "tokX" 9 ∧
    mapGet (createDataPaymentRequest initialState "housing_inventory_2024"
        9 "nX" "tokX").1.pendingNegotiations "nX" = none :=
  ⟨createPayment_snd initialState "housing_inventory_2024" 9 "nX" "tokX"
      housingResource (by decide),
   by decide⟩

/-- Claim C6 (amended): for a resource id in the catalogue, the payment
SDK is invoked for exactly price times 100 minor units with a description
naming the resource, and the returned token is recorded against the
session when a session with that id already exists; in the primary server
no session is created when none exists — the token is then retained only
as the process-global last provided token — whereas the alternate
revision (part_003) does create the session in that case; for an unknown
resource id the call fails without invoking the SDK. -/
theorem C6_amended_payment_request (s : ServerState) (rid : String) (p : ℚ)
    (nid tok : String) (r : DataResource)
    (hr : dataCatalogue.find? (fun x => x.id == rid) = some r) :
    (createDataPaymentRequest s rid p nid tok).2 =
      .ok (p * 100) ("Purchase: " ++ r.name) tok p ∧
    (∀ neg, mapGet s.pendingNegotiations nid = some neg →
      (createDataPaymentRequest s rid p nid tok).1 =
        { s with
          pendingNegotiations :=
            (mapSet s.pendingNegotiations nid
              { neg with paymentToken := some tok })
        , lastProvidedPaymentToken := some tok }) ∧
    (mapGet s.pendingNegotiations nid = none →
      (createDataPaymentRequest s rid p nid tok).1 =
        { s with lastProvidedPaymentToken := some tok }) ∧
    (mapGet s.pendingNegotiations nid = none →
      mapGet (createDataPaymentRequestV2 s rid p nid
          tok).1.pendingNegotiations nid =
        some { resource := r, currentOffer := p, negotiationRound := 1
             , paymentToken := some tok }) ∧
    (∀ rid2, dataCatalogue.find? (fun x => x.id == rid2) = none →
      createDataPaymentRequest s rid2 p nid tok =
        (s, .error "Resource not found")) := by
  refine ⟨createPayment_snd s rid p nid tok r hr, ?_, ?_, ?_, ?_⟩
  · intro neg hm
    exact createPayment_fst_existing s rid p nid tok r neg hr hm
  · intro h0
    exact createPayment_fst_missing s rid p nid tok r hr h0
  · intro h0
    rw [createPaymentV2_fst_missing s rid p nid tok r hr h0]
    exact mapGet_mapSet_self _ _ _
  · intro rid2 h2
    exact createPayment_of_not_found s rid2 p nid tok h2

/-- Witness for the amended C6 at the initial state and the housing
resource with agreed price 9. -/
theorem C6_amended_witness :
    (createDataPaymentRequest initialState "housing_inventory_2024" 9 "nY"
        "tokY").2 =
      .ok ((9 : ℚ) * 100) ("Purchase: " ++ housingResource.name) "tokY" 9 ∧
    (createDataPaymentRequest initialState "housing_inventory_2024" 9 "nY"
        "tokY").1 =
      { initialState with lastProvidedPaymentToken := some "tokY" } ∧
    mapGet (createDataPaymentRequestV2 initialState "housing_inventory_2024"
        9 "nY" "tokY").1.pendingNegotiations "nY" =
      some { resource := housingResource, currentOffer := 9
           , negotiationRound := 1, paymentToken := some "tokY" } := by
  have h := C6_amended_payment_request initialState "housing_inventory_2024"
    9 "nY" "tokY" housingResource (by decide)
  exact ⟨h.1, h.2.2.1 (by decide), h.2.2.2.1 (by decide)⟩
